import Mathlib

/-!
Verification development for the Newapp club-finance tracker
(src/Newapp/{config,database,auth,app}.py), as a shallow embedding:
tables are lists of rows, monetary amounts are rationals, SQL
transactions are statement lists executed under an explicit
commit/abort discipline, and every Streamlit form handler becomes a
pure function on the store state.
-/

namespace Newapp

/-! ## config.py -/

/-- config.py line 3: EXPECTED_PER_MEMBER = 1000 / 120.0 -/
def EXPECTED_PER_MEMBER : ℚ := 1000 / 120

/-- app.py line 28: DIVISOR = 120 (all money inputs divided by 120). -/
def DIVISOR : ℚ := 120

/-- Python round(x, 2): round to two decimal places. -/
def round2 (x : ℚ) : ℚ := (round (x * 100) : ℤ) / 100

/-! ## database.py — data model

Each table of init_db becomes a structure; SERIAL primary keys are
modelled by per-table sequence counters in the store state. -/

/-- Row of the contributions table. -/
structure Contribution where
  id : Nat
  member : String
  amount : ℚ
  month : String
deriving Repr, DecidableEq

/-- Row of the special_projects table. -/
structure SpecialProject where
  id : Nat
  project_name : String
  description : String
  target_amount : ℚ
  deadline : Option String
  status : String
  document : Option (List Nat)
deriving Repr, DecidableEq

/-- Row of the special_contributions table. -/
structure SpecialContribution where
  id : Nat
  project_id : Nat
  name : String
  amount : ℚ
  notes : String
deriving Repr, DecidableEq

/-- Row of the project_income table. -/
structure ProjectIncome where
  id : Nat
  project_id : Nat
  source : String
  amount : ℚ
  notes : String
deriving Repr, DecidableEq

/-- Row of the deletion_logs table (append-only audit log). -/
structure DeletionLogEntry where
  record_type : String
  record_id : Nat
  deleted_by : String
  reason : String
deriving Repr, DecidableEq

/-- The whole ledger database; the seq fields model the SERIAL id
generators of the corresponding tables. -/
structure LedgerState where
  contrib_seq : Nat
  contributions : List Contribution
  project_seq : Nat
  special_projects : List SpecialProject
  special_seq : Nat
  special_contributions : List SpecialContribution
  income_seq : Nat
  project_income : List ProjectIncome
  deletion_logs : List DeletionLogEntry
deriving Repr, DecidableEq

/-- A freshly initialised database (init_db on an empty schema). -/
def emptyState : LedgerState := ⟨0, [], 0, [], 0, [], 0, [], []⟩

/-! ## database.py — transactions

Each delete-with-reason function issues two SQL statements inside a
single engine.begin() block.  We model the statements explicitly and
give engine.begin() the atomic commit/abort semantics the underlying
database provides: on commit every statement persists, and a failure
after any number of statements rolls everything back. -/

/-- The SQL statements issued inside the delete transactions. -/
inductive SqlStmt where
  | insert_deletion_log (record_type : String) (record_id : Nat)
      (deleted_by : String) (reason : String)
  | delete_contribution_row (record_id : Nat)
  | delete_special_contribution_row (record_id : Nat)
  | delete_project_income_row (record_id : Nat)
deriving Repr, DecidableEq

/-- Effect of one SQL statement on the store (a DELETE matching zero
rows simply leaves the table unchanged). -/
def execStmt (s : LedgerState) : SqlStmt → LedgerState
  | .insert_deletion_log t i u r =>
      { s with deletion_logs := s.deletion_logs ++ [⟨t, i, u, r⟩] }
  | .delete_contribution_row i =>
      { s with contributions := s.contributions.filter (fun c => c.id != i) }
  | .delete_special_contribution_row i =>
      { s with special_contributions :=
          s.special_contributions.filter (fun c => c.id != i) }
  | .delete_project_income_row i =>
      { s with project_income := s.project_income.filter (fun c => c.id != i) }

/-- engine.begin(): run the statements as one transaction.
failAfter = none means the transaction commits; failAfter = some k
means it fails after k statements, and the database rolls back, so
nothing persists. -/
def engine_begin (s : LedgerState) (stmts : List SqlStmt) :
    Option Nat → LedgerState
  | none => stmts.foldl execStmt s
  | some _ => s

/-! ## database.py — operations -/

/-- database.py add_contribution: one INSERT into contributions. -/
def add_contribution (s : LedgerState) (member : String) (amount : ℚ)
    (month : String) : LedgerState :=
  { s with contrib_seq := s.contrib_seq + 1,
           contributions := s.contributions ++
             [⟨s.contrib_seq + 1, member, amount, month⟩] }

/-- database.py delete_contribution_with_reason: INSERT into
deletion_logs with record_type literal 'contribution', then DELETE
from contributions, both inside one engine.begin(). -/
def delete_contribution_with_reason (s : LedgerState) (entry_id : Nat)
    (deleted_by reason : String) (failAfter : Option Nat) : LedgerState :=
  engine_begin s
    [ .insert_deletion_log "contribution" entry_id deleted_by reason,
      .delete_contribution_row entry_id ] failAfter

/-- database.py create_special_project: INSERT RETURNING id. -/
def create_special_project (s : LedgerState) (name desc : String)
    (target : ℚ) (deadline : Option String) (doc : Option (List Nat)) :
    LedgerState × Nat :=
  let pid := s.project_seq + 1
  ({ s with project_seq := pid,
            special_projects := s.special_projects ++
              [⟨pid, name, desc, target, deadline, "active", doc⟩] }, pid)

/-- database.py add_special_project_contribution. -/
def add_special_project_contribution (s : LedgerState) (project_id : Nat)
    (name : String) (amount : ℚ) (notes : String) : LedgerState :=
  { s with special_seq := s.special_seq + 1,
           special_contributions := s.special_contributions ++
             [⟨s.special_seq + 1, project_id, name, amount, notes⟩] }

/-- database.py delete_special_contribution_with_reason: log insert
with record_type literal 'special_contribution' plus row delete in one
transaction. -/
def delete_special_contribution_with_reason (s : LedgerState)
    (contrib_id : Nat) (deleted_by reason : String)
    (failAfter : Option Nat) : LedgerState :=
  engine_begin s
    [ .insert_deletion_log "special_contribution" contrib_id deleted_by reason,
      .delete_special_contribution_row contrib_id ] failAfter

/-- database.py add_project_income. -/
def add_project_income (s : LedgerState) (project_id : Nat)
    (source : String) (amount : ℚ) (notes : String) : LedgerState :=
  { s with income_seq := s.income_seq + 1,
           project_income := s.project_income ++
             [⟨s.income_seq + 1, project_id, source, amount, notes⟩] }

/-- database.py delete_project_income_with_reason: log insert with
record_type literal 'project_income' plus row delete in one
transaction. -/
def delete_project_income_with_reason (s : LedgerState) (income_id : Nat)
    (deleted_by reason : String) (failAfter : Option Nat) : LedgerState :=
  engine_begin s
    [ .insert_deletion_log "project_income" income_id deleted_by reason,
      .delete_project_income_row income_id ] failAfter

/-- Financial summary record returned by get_project_financial_summary. -/
structure FinancialSummary where
  contributions : ℚ
  income : ℚ
  total : ℚ
deriving Repr, DecidableEq

/-- database.py get_project_financial_summary: COALESCE(SUM(amount),0)
over each of the two tables filtered by project_id, plus their sum. -/
def get_project_financial_summary (s : LedgerState) (project_id : Nat) :
    FinancialSummary :=
  let contrib :=
    ((s.special_contributions.filter
        (fun c => c.project_id == project_id)).map (fun c => c.amount)).sum
  let income :=
    ((s.project_income.filter
        (fun c => c.project_id == project_id)).map (fun c => c.amount)).sum
  ⟨contrib, income, contrib + income⟩

/-- Number of deletion-log entries with the given record_type and
record_id. -/
def countLog (s : LedgerState) (rtype : String) (rid : Nat) : Nat :=
  (s.deletion_logs.filter
    (fun e => e.record_type == rtype && e.record_id == rid)).length

/-! ## auth.py — credential store

The users table of the SQLite database, in insertion (rowid) order.
bcrypt hashing is kept abstract: every operation that hashes takes the
hash function as a parameter. -/

/-- SQL LOWER() as SQLite applies it to TEXT: ASCII lowercasing of
each character (only 'A'-'Z' are affected, exactly what Char.toLower
does). -/
def sqlLower (s : String) : String := ⟨s.data.map Char.toLower⟩

/-- Row of the users table (username is the TEXT PRIMARY KEY,
byte-exact under SQLite's default BINARY collation). -/
structure UserRec where
  username : String
  name : String
  password : String
  email : Option String
  role : String
deriving Repr, DecidableEq

/-- The users table, in insertion order (SQLite rowid order, which is
the order fetchone scans). -/
abbrev UsersDb := List UserRec

/-- auth.py user_exists: SELECT COUNT WHERE username = ? — an exact,
case-sensitive match. -/
def user_exists (db : UsersDb) (username : String) : Bool :=
  db.any (fun u => u.username == username)

/-- auth.py get_user_role: SELECT role WHERE LOWER(username) =
LOWER(?) with fetchone, i.e. the first row matching case-insensitively. -/
def get_user_role (db : UsersDb) (username : String) : Option String :=
  (db.find? (fun u => sqlLower u.username == sqlLower username)).map
    (fun u => u.role)

/-- auth.py verify_user_email: case-insensitive username+email match
(a NULL email never matches, since LOWER(NULL) = NULL in SQL). -/
def verify_user_email (db : UsersDb) (username email : String) : Bool :=
  db.any (fun u => sqlLower u.username == sqlLower username &&
    (match u.email with
     | some e => sqlLower e == sqlLower email
     | none => false))

/-- auth.py save_user_to_db: counts rows, grants admin iff the count
is zero, then INSERTs; a duplicate primary key (exact username) raises
IntegrityError, modelled as none (the function returning False). -/
def save_user_to_db (db : UsersDb) (username name hashed_password : String)
    (email : Option String) : Option UsersDb :=
  let role := if db.length = 0 then "admin" else "viewer"
  if db.any (fun u => u.username == username) then
    none
  else
    some (db ++ [⟨username, name, hashed_password, email, role⟩])

/-- auth.py update_password: UPDATE password WHERE LOWER(username) =
LOWER(?) — rewrites the password hash of every case-insensitive match
and touches nothing else. -/
def update_password (hash : String → String) (db : UsersDb)
    (username new_password : String) : UsersDb :=
  db.map (fun u =>
    if sqlLower u.username == sqlLower username then
      { u with password := hash new_password }
    else u)

/-- One submission of auth.py's registration form. -/
structure RegRequest where
  username : String
  name : String
  email : String
  pw1 : String
  pw2 : String
deriving Repr, DecidableEq

/-- auth.py register_user_ui submit path: presence checks, password
match, minimum length, the case-sensitive user_exists check, then
save_user_to_db with the bcrypt hash of pw1.  none models every
rejected submission (form error shown, database untouched). -/
def register_user_ui (hash : String → String) (db : UsersDb)
    (r : RegRequest) : Option UsersDb :=
  if r.username = "" ∨ r.name = "" ∨ r.email = "" ∨ r.pw1 = "" ∨ r.pw2 = "" then
    none
  else if r.pw1 ≠ r.pw2 then
    none
  else if r.pw1.length < 6 then
    none
  else if user_exists db r.username then
    none
  else
    save_user_to_db db r.username r.name (hash r.pw1) (some r.email)

/-- A sequence of registration-form submissions, applied in order; a
failed submission leaves the store unchanged. -/
def run_registrations (hash : String → String) (db : UsersDb) :
    List RegRequest → UsersDb
  | [] => db
  | r :: rs =>
      run_registrations hash
        (match register_user_ui hash db r with
         | some db' => db'
         | none => db) rs

/-! ## app.py — form handlers

Each Streamlit handler becomes a pure function from the submitted
fields and the current store state to the next state (or a form
error).  round(amount_raw / DIVISOR, 2) is round2 (a / DIVISOR). -/

/-- app.py lines 121-128, the add_contribution_form submit handler:
empty member, empty month or amount_raw <= 0 is a form error before
any store call; otherwise the normalized amount is persisted. -/
def add_contribution_form (s : LedgerState) (member_name : String)
    (amount_raw : ℚ) (month : String) : Except String LedgerState :=
  if member_name = "" ∨ month = "" ∨ amount_raw ≤ 0 then
    .error "Please fill all fields"
  else
    .ok (add_contribution s member_name (round2 (amount_raw / DIVISOR)) month)

/-- Python str.strip(): drop leading and trailing whitespace. -/
def pyStrip (s : String) : String :=
  ⟨((s.data.dropWhile Char.isWhitespace).reverse.dropWhile
      Char.isWhitespace).reverse⟩

/-- app.py lines 139-146, the Delete Entry button: a reason that is
empty after stripping whitespace is rejected with no store call;
otherwise the delete-with-reason transaction runs and commits. -/
def delete_entry_button (s : LedgerState) (entry_id : Nat)
    (username reason : String) : LedgerState :=
  if pyStrip reason = "" then s
  else delete_contribution_with_reason s entry_id username reason none

/-- app.py lines 226-234, the create_project_form submit handler:
empty name or target_raw <= 0 is a form error; otherwise the project
is created with the normalized target. -/
def create_project_form (s : LedgerState) (proj_name proj_desc : String)
    (proj_target_raw : ℚ) (proj_deadline : Option String)
    (proj_doc : Option (List Nat)) : Except String LedgerState :=
  if proj_name = "" ∨ proj_target_raw ≤ 0 then
    .error "Please fill required fields."
  else
    .ok (create_special_project s proj_name proj_desc
          (round2 (proj_target_raw / DIVISOR)) proj_deadline proj_doc).1

/-- app.py lines 256-264, the per-project add_contrib form: NO
validation — the submit handler normalizes amount_raw and calls the
store unconditionally (the number_input widget only floors raw input
at 0). -/
def add_contrib_form (s : LedgerState) (project_id : Nat) (name : String)
    (amount_raw : ℚ) (notes : String) : LedgerState :=
  add_special_project_contribution s project_id name
    (round2 (amount_raw / DIVISOR)) notes

/-- app.py lines 284-297, the Delete Contribution button for a special
contribution: same reason gate as the Delete Entry button. -/
def delete_contribution_button (s : LedgerState) (contrib_id : Nat)
    (username reason : String) : LedgerState :=
  if pyStrip reason = "" then s
  else delete_special_contribution_with_reason s contrib_id username reason none

/-- app.py lines 302-310, the per-project add_income form: NO
validation — normalizes and calls the store unconditionally. -/
def add_income_form (s : LedgerState) (project_id : Nat) (source : String)
    (amount_raw : ℚ) (notes : String) : LedgerState :=
  add_project_income s project_id source (round2 (amount_raw / DIVISOR)) notes

/-- app.py lines 330-343, the Delete Income button: same reason gate. -/
def delete_income_button (s : LedgerState) (income_id : Nat)
    (username reason : String) : LedgerState :=
  if pyStrip reason = "" then s
  else delete_project_income_with_reason s income_id username reason none

/-! ## app.py — monthly shortfall check (lines 172-187) -/

/-- The distinct (month, member) group keys of the dataframe.  pandas
emits them sorted by key; the check below is insensitive to the order
in which distinct keys are enumerated, so dedup suffices. -/
def monthKeys (rows : List Contribution) : List (String × String) :=
  (rows.map (fun r => (r.month, r.member))).dedup

/-- Sum of the amounts of one (month, member) group. -/
def groupSum (rows : List Contribution) (key : String × String) : ℚ :=
  ((rows.filter (fun r => r.month == key.1 && r.member == key.2)).map
    (fun r => r.amount)).sum

/-- app.py line 172: monthly_group = df.groupby(["month", "member"],
as_index=False)["amount"].sum(). -/
def monthly_group (rows : List Contribution) : List (String × String × ℚ) :=
  (monthKeys rows).map (fun k => (k.1, k.2, groupSum rows k))

/-- app.py lines 174-180: one warning per grouped row whose summed
amount is strictly below EXPECTED_PER_MEMBER. -/
def shortfall_warnings (rows : List Contribution) :
    List (String × String × ℚ) :=
  (monthly_group rows).filter
    (fun g => decide (g.2.2 < EXPECTED_PER_MEMBER))

/-- The role column the spec prescribes for a store holding n users:
admin for the first ever registrant, viewer for every later one.
This is the spec-side description, to be compared with what the
registration code actually stores. -/
def adminThenViewers : Nat → List String
  | 0 => []
  | n + 1 => "admin" :: List.replicate n "viewer"

/-- A state holding exactly one monthly contribution, id 1. -/
def s_with_one : LedgerState := add_contribution emptyState "Alice" 5 "Jan"

/-! ## Helper lemmas -/

/-- After filtering out key i, no element with key i remains. -/
theorem filter_beq_of_filter_bne {α : Type} (l : List α) (f : α → Nat)
    (i : Nat) :
    (l.filter (fun c => f c != i)).filter (fun c => f c == i) = [] := by
  apply List.filter_eq_nil_iff.mpr
  intro c hc
  have h1 : (f c != i) = true := (List.mem_filter.mp hc).2
  simp only [bne_iff_ne, ne_eq] at h1
  simp [h1]

/-- If no element has key i, filtering out key i changes nothing. -/
theorem filter_bne_of_no_match {α : Type} (l : List α) (f : α → Nat)
    (i : Nat) (h : l.filter (fun c => f c == i) = []) :
    l.filter (fun c => f c != i) = l := by
  apply List.filter_eq_self.mpr
  intro a ha
  have h1 := List.filter_eq_nil_iff.mp h a ha
  simpa using h1

/-- Appending one more copy to a replicate list. -/
theorem replicate_append_singleton (n : Nat) (a : String) :
    List.replicate n a ++ [a] = a :: List.replicate n a := by
  rw [← List.replicate_succ', List.replicate_succ]

/-! ## Claim theorems -/

/-- C1: each of the three delete-with-reason operations is one atomic
transaction: a failure after any number of its statements leaves the
store exactly as it was (no log entry without the delete and no delete
without the log entry), and a committed run appends exactly one
deletion-log entry carrying the operation's record_type literal and
the record id — raising the matching log count by exactly one — and
removes every row with that id from the targeted table. -/
theorem delete_with_reason_atomic (s : LedgerState) (i k : Nat)
    (u r : String) :
    (delete_contribution_with_reason s i u r (some k) = s
      ∧ (delete_contribution_with_reason s i u r none).deletion_logs
          = s.deletion_logs ++ [⟨"contribution", i, u, r⟩]
      ∧ countLog (delete_contribution_with_reason s i u r none)
          "contribution" i = countLog s "contribution" i + 1
      ∧ (delete_contribution_with_reason s i u r none).contributions.filter
          (fun c => c.id == i) = [])
    ∧ (delete_special_contribution_with_reason s i u r (some k) = s
      ∧ (delete_special_contribution_with_reason s i u r none).deletion_logs
          = s.deletion_logs ++ [⟨"special_contribution", i, u, r⟩]
      ∧ countLog (delete_special_contribution_with_reason s i u r none)
          "special_contribution" i = countLog s "special_contribution" i + 1
      ∧ (delete_special_contribution_with_reason s i u r
          none).special_contributions.filter (fun c => c.id == i) = [])
    ∧ (delete_project_income_with_reason s i u r (some k) = s
      ∧ (delete_project_income_with_reason s i u r none).deletion_logs
          = s.deletion_logs ++ [⟨"project_income", i, u, r⟩]
      ∧ countLog (delete_project_income_with_reason s i u r none)
          "project_income" i = countLog s "project_income" i + 1
      ∧ (delete_project_income_with_reason s i u r none).project_income.filter
          (fun c => c.id == i) = []) := by
  refine ⟨⟨rfl, ?_, ?_, ?_⟩, ⟨rfl, ?_, ?_, ?_⟩, ⟨rfl, ?_, ?_, ?_⟩⟩
  · simp [delete_contribution_with_reason, engine_begin, execStmt]
  · simp [delete_contribution_with_reason, engine_begin, execStmt, countLog,
      List.filter_append]
  · simp only [delete_contribution_with_reason, engine_begin,
      List.foldl_cons, List.foldl_nil, execStmt]
    exact filter_beq_of_filter_bne s.contributions (fun c => c.id) i
  · simp [delete_special_contribution_with_reason, engine_begin, execStmt]
  · simp [delete_special_contribution_with_reason, engine_begin, execStmt,
      countLog, List.filter_append]
  · simp only [delete_special_contribution_with_reason, engine_begin,
      List.foldl_cons, List.foldl_nil, execStmt]
    exact filter_beq_of_filter_bne s.special_contributions (fun c => c.id) i
  · simp [delete_project_income_with_reason, engine_begin, execStmt]
  · simp [delete_project_income_with_reason, engine_begin, execStmt,
      countLog, List.filter_append]
  · simp only [delete_project_income_with_reason, engine_begin,
      List.foldl_cons, List.foldl_nil, execStmt]
    exact filter_beq_of_filter_bne s.project_income (fun c => c.id) i

/-- C9: the financial summary's total field is always the sum of its
contributions and income fields, each computed independently as the
sum of the matching project's rows in its own table. -/
theorem project_financial_summary_total (s : LedgerState) (pid : Nat) :
    (get_project_financial_summary s pid).total
      = (get_project_financial_summary s pid).contributions
        + (get_project_financial_summary s pid).income
    ∧ (get_project_financial_summary s pid).contributions
      = ((s.special_contributions.filter
          (fun c => c.project_id == pid)).map (fun c => c.amount)).sum
    ∧ (get_project_financial_summary s pid).income
      = ((s.project_income.filter
          (fun c => c.project_id == pid)).map (fun c => c.amount)).sum :=
  ⟨rfl, rfl, rfl⟩

/-- C8: a project with no special contributions and no income rows
gets the summary {contributions = 0, income = 0, total = 0}; the
function always returns a complete record, never an error or an
absent field. -/
theorem project_financial_summary_empty (s : LedgerState) (pid : Nat)
    (h1 : s.special_contributions.filter (fun c => c.project_id == pid) = [])
    (h2 : s.project_income.filter (fun c => c.project_id == pid) = []) :
    get_project_financial_summary s pid = ⟨0, 0, 0⟩ := by
  simp [get_project_financial_summary, h1, h2]

/-- Witness for C8 at the freshly initialised database and project 1. -/
theorem project_financial_summary_empty_witness :
    (emptyState.special_contributions.filter (fun c => c.project_id == 1) = [])
    ∧ (emptyState.project_income.filter (fun c => c.project_id == 1) = [])
    ∧ get_project_financial_summary emptyState 1 = ⟨0, 0, 0⟩ :=
  ⟨rfl, rfl, project_financial_summary_empty emptyState 1 rfl rfl⟩

/-- C10: calling any delete-with-reason function on a record id absent
from the targeted table still commits: the table is unchanged (the
DELETE matches zero rows) while a deletion-log entry for that id is
nevertheless appended, so the audit log can name ids that never
corresponded to a removed row. -/
theorem delete_nonexistent_id_still_logs (s : LedgerState) (i : Nat)
    (u r : String)
    (h1 : s.contributions.filter (fun c => c.id == i) = [])
    (h2 : s.special_contributions.filter (fun c => c.id == i) = [])
    (h3 : s.project_income.filter (fun c => c.id == i) = []) :
    ((delete_contribution_with_reason s i u r none).contributions
        = s.contributions
      ∧ (delete_contribution_with_reason s i u r none).deletion_logs
        = s.deletion_logs ++ [⟨"contribution", i, u, r⟩])
    ∧ ((delete_special_contribution_with_reason s i u r
          none).special_contributions = s.special_contributions
      ∧ (delete_special_contribution_with_reason s i u r none).deletion_logs
        = s.deletion_logs ++ [⟨"special_contribution", i, u, r⟩])
    ∧ ((delete_project_income_with_reason s i u r none).project_income
        = s.project_income
      ∧ (delete_project_income_with_reason s i u r none).deletion_logs
        = s.deletion_logs ++ [⟨"project_income", i, u, r⟩]) := by
  refine ⟨⟨?_, ?_⟩, ⟨?_, ?_⟩, ⟨?_, ?_⟩⟩
  · simp only [delete_contribution_with_reason, engine_begin,
      List.foldl_cons, List.foldl_nil, execStmt]
    exact filter_bne_of_no_match s.contributions (fun c => c.id) i h1
  · simp [delete_contribution_with_reason, engine_begin, execStmt]
  · simp only [delete_special_contribution_with_reason, engine_begin,
      List.foldl_cons, List.foldl_nil, execStmt]
    exact filter_bne_of_no_match s.special_contributions (fun c => c.id) i h2
  · simp [delete_special_contribution_with_reason, engine_begin, execStmt]
  · simp only [delete_project_income_with_reason, engine_begin,
      List.foldl_cons, List.foldl_nil, execStmt]
    exact filter_bne_of_no_match s.project_income (fun c => c.id) i h3
  · simp [delete_project_income_with_reason, engine_begin, execStmt]

/-- Witness for C10 at the freshly initialised database and id 1. -/
theorem delete_nonexistent_id_still_logs_witness :
    (emptyState.contributions.filter (fun c => c.id == 1) = [])
    ∧ (emptyState.special_contributions.filter (fun c => c.id == 1) = [])
    ∧ (emptyState.project_income.filter (fun c => c.id == 1) = [])
    ∧ (delete_contribution_with_reason emptyState 1 "admin" "typo"
        none).contributions = emptyState.contributions
    ∧ (delete_contribution_with_reason emptyState 1 "admin" "typo"
        none).deletion_logs
      = emptyState.deletion_logs ++ [⟨"contribution", 1, "admin", "typo"⟩] :=
  ⟨rfl, rfl, rfl,
    (delete_nonexistent_id_still_logs emptyState 1 "admin" "typo"
      rfl rfl rfl).1.1,
    (delete_nonexistent_id_still_logs emptyState 1 "admin" "typo"
      rfl rfl rfl).1.2⟩

/-- C2: the shortfall check flags exactly the (month, member) groups
whose summed amount is strictly below EXPECTED_PER_MEMBER; on the
spec's example, Alice's two January rows of 5 and 3 are grouped into
one flagged row with total 8, and any pair of amounts summing to at
least 8.34 leaves the group unflagged. -/
theorem monthly_shortfall_check (rows : List Contribution)
    (m mem : String) (a x y : ℚ) :
    ((m, mem, a) ∈ shortfall_warnings rows ↔
      ((m, mem) ∈ monthKeys rows ∧ a = groupSum rows (m, mem)
        ∧ a < EXPECTED_PER_MEMBER))
    ∧ shortfall_warnings [⟨1, "Alice", 5, "Jan"⟩, ⟨2, "Alice", 3, "Jan"⟩]
        = [("Jan", "Alice", 8)]
    ∧ ((834 : ℚ) / 100 ≤ x + y →
        shortfall_warnings [⟨1, "Alice", x, "Jan"⟩, ⟨2, "Alice", y, "Jan"⟩]
          = []) := by
  refine ⟨?_, ?_, ?_⟩
  · simp only [shortfall_warnings, monthly_group, List.mem_filter,
      List.mem_map, decide_eq_true_eq]
    constructor
    · rintro ⟨⟨k, hk, hfk⟩, hlt⟩
      obtain ⟨k1, k2⟩ := k
      simp only [Prod.mk.injEq] at hfk
      obtain ⟨e1, e2, e3⟩ := hfk
      subst e1; subst e2; subst e3
      exact ⟨hk, rfl, hlt⟩
    · rintro ⟨hk, ha, hlt⟩
      subst ha
      exact ⟨⟨(m, mem), hk, rfl⟩, hlt⟩
  · norm_num [shortfall_warnings, monthly_group, monthKeys, groupSum,
      EXPECTED_PER_MEMBER, List.dedup, List.filter]
  · intro h
    apply List.filter_eq_nil_iff.mpr
    intro g hg
    simp [monthly_group, monthKeys, groupSum, List.dedup, List.filter] at hg
    subst hg
    simp [EXPECTED_PER_MEMBER]
    linarith

/-- Witness for C2's threshold hypothesis at x = 8.34, y = 0. -/
theorem monthly_shortfall_check_witness :
    (834 : ℚ) / 100 ≤ 834 / 100 + 0
    ∧ shortfall_warnings
        [⟨1, "Alice", 834 / 100, "Jan"⟩, ⟨2, "Alice", 0, "Jan"⟩] = [] :=
  ⟨by norm_num,
    (monthly_shortfall_check [] "" "" 0 (834 / 100) 0).2.2 (by norm_num)⟩

/-- One successful insert by save_user_to_db keeps the users table's
role column in the admin-then-viewers shape. -/
theorem save_user_roles (db : UsersDb) (username name hp : String)
    (email : Option String) (db' : UsersDb)
    (h : db.map (fun u => u.role) = adminThenViewers db.length)
    (hs : save_user_to_db db username name hp email = some db') :
    db'.map (fun u => u.role) = adminThenViewers db'.length := by
  simp only [save_user_to_db] at hs
  by_cases hdup : (db.any fun u => u.username == username) = true
  · rw [if_pos hdup] at hs
    exact Option.noConfusion hs
  · rw [if_neg hdup, Option.some_inj] at hs
    subst hs
    cases db with
    | nil => simp [adminThenViewers]
    | cons u0 t =>
        simp only [adminThenViewers, List.length_cons] at h
        rw [List.map_cons] at h
        injection h with hu ht
        simp [adminThenViewers, hu, ht, List.replicate_succ,
          replicate_append_singleton]

/-- One successful registration keeps the users table's role column in
the admin-then-viewers shape. -/
theorem register_preserves_roles (hash : String → String) (db : UsersDb)
    (r : RegRequest) (db' : UsersDb)
    (h : db.map (fun u => u.role) = adminThenViewers db.length)
    (hreg : register_user_ui hash db r = some db') :
    db'.map (fun u => u.role) = adminThenViewers db'.length := by
  simp only [register_user_ui] at hreg
  split_ifs at hreg
  exact save_user_roles db r.username r.name (hash r.pw1) (some r.email)
    db' h hreg

/-- Running any sequence of registrations keeps the role column in the
admin-then-viewers shape. -/
theorem run_registrations_roles (hash : String → String)
    (rs : List RegRequest) : ∀ db : UsersDb,
    db.map (fun u => u.role) = adminThenViewers db.length →
    (run_registrations hash db rs).map (fun u => u.role)
      = adminThenViewers (run_registrations hash db rs).length := by
  induction rs with
  | nil => intro db h; simpa [run_registrations] using h
  | cons r rs ih =>
      intro db h
      simp only [run_registrations]
      cases hreg : register_user_ui hash db r with
      | none => simpa [hreg] using ih db h
      | some db' =>
          simpa [hreg] using
            ih db' (register_preserves_roles hash db r db' h hreg)

/-- C3: starting from an empty credential store, after any sequence of
registration attempts the stored roles are admin for the first user
and viewer for every later one — so the first successful registration
stored admin and each subsequent one stored viewer — and the only
mutating operation, update_password, never touches the role column. -/
theorem first_registration_admin (hash : String → String)
    (rs : List RegRequest) (db : UsersDb) (u npw : String) :
    ((run_registrations hash [] rs).map (fun x => x.role)
        = adminThenViewers (run_registrations hash [] rs).length)
    ∧ (update_password hash db u npw).map (fun x => x.role)
        = db.map (fun x => x.role) := by
  constructor
  · exact run_registrations_roles hash rs [] rfl
  · simp only [update_password, List.map_map]
    apply List.map_congr_left
    intro a ha
    simp only [Function.comp]
    split <;> rfl

/-- C4: on every input surface, a raw amount A that passes the form's
checks is persisted as round(A / 120, 2) — the store receives the
normalized value, never the raw one. -/
theorem amounts_normalized (s : LedgerState) (A : ℚ)
    (member month name notes source pname pdesc : String) (pid : Nat)
    (dl : Option String) (doc : Option (List Nat))
    (h1 : ¬(member = "" ∨ month = "" ∨ A ≤ 0))
    (h2 : ¬(pname = "" ∨ A ≤ 0)) :
    add_contribution_form s member A month
      = .ok
        { s with
            contrib_seq := s.contrib_seq + 1,
            contributions := s.contributions
              ++ [⟨s.contrib_seq + 1, member, round2 (A / 120), month⟩] }
    ∧ create_project_form s pname pdesc A dl doc
      = .ok
        { s with
            project_seq := s.project_seq + 1,
            special_projects := s.special_projects
              ++ [⟨s.project_seq + 1, pname, pdesc, round2 (A / 120), dl,
                    "active", doc⟩] }
    ∧ add_contrib_form s pid name A notes
      = { s with
            special_seq := s.special_seq + 1,
            special_contributions := s.special_contributions
              ++ [⟨s.special_seq + 1, pid, name, round2 (A / 120), notes⟩] }
    ∧ add_income_form s pid source A notes
      = { s with
            income_seq := s.income_seq + 1,
            project_income := s.project_income
              ++ [⟨s.income_seq + 1, pid, source, round2 (A / 120),
                    notes⟩] } := by
  refine ⟨?_, ?_, ?_, ?_⟩
  · simp [add_contribution_form, if_neg h1, add_contribution, DIVISOR]
  · simp [create_project_form, if_neg h2, create_special_project, DIVISOR]
  · simp [add_contrib_form, add_special_project_contribution, DIVISOR]
  · simp [add_income_form, add_project_income, DIVISOR]

/-- Witness for C4 at amount 100 on the fresh database, with the
normalized value evaluated: round(100 / 120, 2) = 0.83. -/
theorem amounts_normalized_witness :
    ¬(("Alice" : String) = "" ∨ ("Jan" : String) = "" ∨ (100 : ℚ) ≤ 0)
    ∧ add_contribution_form emptyState "Alice" 100 "Jan"
      = .ok
        { emptyState with
            contrib_seq := emptyState.contrib_seq + 1,
            contributions := emptyState.contributions
              ++ [⟨emptyState.contrib_seq + 1, "Alice",
                    round2 ((100 : ℚ) / 120), "Jan"⟩] }
    ∧ round2 ((100 : ℚ) / 120) = 83 / 100 := by
  have hn : ¬(("Alice" : String) = "" ∨ ("Jan" : String) = ""
      ∨ (100 : ℚ) ≤ 0) := by
    rintro (h | h | h)
    · exact absurd h (by decide)
    · exact absurd h (by decide)
    · norm_num at h
  have hp : ¬(("Roof" : String) = "" ∨ (100 : ℚ) ≤ 0) := by
    rintro (h | h)
    · exact absurd h (by decide)
    · norm_num at h
  exact ⟨hn,
    (amounts_normalized emptyState 100 "Alice" "Jan" "N" "" "S" "Roof" "" 1
      none none hn hp).1,
    by norm_num [round2, round_eq]⟩

/-- C5: the duplicate-username check is case-sensitive while the role
lookup and username+email verification are case-insensitive: "Bob"
and "bob" both register successfully (the second passes the exact
check), after which a case-insensitive lookup matches both rows —
get_user_role on either spelling returns the first row's role. -/
theorem username_case_sensitivity (hash : String → String) :
    register_user_ui hash []
        ⟨"Bob", "Bob Smith", "bob@x.com", "secret1", "secret1"⟩
      = some [⟨"Bob", "Bob Smith", hash "secret1", some "bob@x.com", "admin"⟩]
    ∧ user_exists
        [⟨"Bob", "Bob Smith", hash "secret1", some "bob@x.com", "admin"⟩]
        "bob" = false
    ∧ register_user_ui hash
        [⟨"Bob", "Bob Smith", hash "secret1", some "bob@x.com", "admin"⟩]
        ⟨"bob", "Bobby", "bobby@x.com", "secret2", "secret2"⟩
      = some [⟨"Bob", "Bob Smith", hash "secret1", some "bob@x.com", "admin"⟩,
              ⟨"bob", "Bobby", hash "secret2", some "bobby@x.com", "viewer"⟩]
    ∧ (([⟨"Bob", "Bob Smith", hash "secret1", some "bob@x.com", "admin"⟩,
         ⟨"bob", "Bobby", hash "secret2", some "bobby@x.com", "viewer"⟩] :
          UsersDb).filter
        (fun u => sqlLower u.username == sqlLower "bob")).length = 2
    ∧ get_user_role
        [⟨"Bob", "Bob Smith", hash "secret1", some "bob@x.com", "admin"⟩,
         ⟨"bob", "Bobby", hash "secret2", some "bobby@x.com", "viewer"⟩]
        "bob" = some "admin"
    ∧ get_user_role
        [⟨"Bob", "Bob Smith", hash "secret1", some "bob@x.com", "admin"⟩,
         ⟨"bob", "Bobby", hash "secret2", some "bobby@x.com", "viewer"⟩]
        "Bob" = some "admin"
    ∧ verify_user_email
        [⟨"Bob", "Bob Smith", hash "secret1", some "bob@x.com", "admin"⟩,
         ⟨"bob", "Bobby", hash "secret2", some "bobby@x.com", "viewer"⟩]
        "BOB" "BOB@X.COM" = true := by
  have hB : sqlLower "Bob" = "bob" := by decide
  have hb : sqlLower "bob" = "bob" := by decide
  have hBO : sqlLower "BOB" = "bob" := by decide
  have he1 : sqlLower "bob@x.com" = "bob@x.com" := by decide
  have he2 : sqlLower "BOB@X.COM" = "bob@x.com" := by decide
  refine ⟨?_, ?_, ?_, ?_, ?_, ?_, ?_⟩
  · simp [register_user_ui, save_user_to_db, user_exists]
    decide
  · simp [user_exists]
  · simp [register_user_ui, save_user_to_db, user_exists]
    decide
  · simp [List.filter, hB, hb]
  · simp [get_user_role, List.find?, hB, hb]
  · simp [get_user_role, List.find?, hB, hb]
  · simp [verify_user_email, hB, hb, hBO, he1, he2]

/-- C6 counterexample: submitting the special-contribution and income
forms with raw amount 0 (which the number_input widget permits) makes
the store call and inserts a row with amount 0, a non-positive amount
— the claimed ValidationError never happens on these surfaces. -/
theorem nonpositive_amount_counterexample :
    (add_contrib_form emptyState 1 "X" 0 "").special_contributions
      = [⟨1, 1, "X", 0, ""⟩]
    ∧ (add_income_form emptyState 1 "src" 0 "").project_income
      = [⟨1, 1, "src", 0, ""⟩] := by
  constructor <;>
    norm_num [add_contrib_form, add_income_form,
      add_special_project_contribution, add_project_income, emptyState,
      round2, DIVISOR, round_eq]

/-- C6 amended: only the monthly-contribution form rejects a
non-positive amount before the store call; the special-contribution
and project-income forms validate nothing and always insert, so a
zero amount reaches the store. -/
theorem nonpositive_amount_amended (s : LedgerState)
    (member month name notes source : String) (pid : Nat) (A : ℚ)
    (h : A ≤ 0) :
    add_contribution_form s member A month = .error "Please fill all fields"
    ∧ (add_contrib_form s pid name A notes).special_contributions
        = s.special_contributions
          ++ [⟨s.special_seq + 1, pid, name, round2 (A / DIVISOR), notes⟩]
    ∧ (add_income_form s pid source A notes).project_income
        = s.project_income
          ++ [⟨s.income_seq + 1, pid, source, round2 (A / DIVISOR), notes⟩] := by
  refine ⟨?_, ?_, ?_⟩
  · simp [add_contribution_form, if_pos (Or.inr (Or.inr h))]
  · simp [add_contrib_form, add_special_project_contribution]
  · simp [add_income_form, add_project_income]

/-- Witness for C6's amended theorem at amount 0. -/
theorem nonpositive_amount_amended_witness :
    (0 : ℚ) ≤ 0
    ∧ add_contribution_form emptyState "Alice" 0 "Jan"
        = .error "Please fill all fields"
    ∧ (add_contrib_form emptyState 1 "X" 0 "").special_contributions
        = emptyState.special_contributions
          ++ [⟨emptyState.special_seq + 1, 1, "X",
                round2 ((0 : ℚ) / DIVISOR), ""⟩] :=
  ⟨le_refl 0,
   (nonpositive_amount_amended emptyState "Alice" "Jan" "X" "" "src" 1 0
      (le_refl 0)).1,
   (nonpositive_amount_amended emptyState "Alice" "Jan" "X" "" "src" 1 0
      (le_refl 0)).2.1⟩

/-- C7 counterexample: the store delete function itself performs no
reason validation — invoked directly with an empty reason on a store
holding contribution 1, it still inserts the deletion-log entry and
deletes the row. -/
theorem empty_reason_counterexample :
    (delete_contribution_with_reason s_with_one 1 "boss" "" none).deletion_logs
      = [⟨"contribution", 1, "boss", ""⟩]
    ∧ (delete_contribution_with_reason s_with_one 1 "boss" ""
        none).contributions = [] := by
  constructor <;> rfl

/-- C7 amended: an empty or whitespace-only reason is rejected at the
UI edge — all three delete buttons leave the store untouched, no log
entry and no deletion — but the store delete functions do not
re-validate: called directly they log and delete whatever the reason. -/
theorem empty_reason_amended (s : LedgerState) (i : Nat)
    (u reason : String) (h : pyStrip reason = "") :
    delete_entry_button s i u reason = s
    ∧ delete_contribution_button s i u reason = s
    ∧ delete_income_button s i u reason = s
    ∧ (delete_contribution_with_reason s i u reason none).deletion_logs
        = s.deletion_logs ++ [⟨"contribution", i, u, reason⟩]
    ∧ (delete_special_contribution_with_reason s i u reason
        none).deletion_logs
        = s.deletion_logs ++ [⟨"special_contribution", i, u, reason⟩]
    ∧ (delete_project_income_with_reason s i u reason none).deletion_logs
        = s.deletion_logs ++ [⟨"project_income", i, u, reason⟩] := by
  refine ⟨?_, ?_, ?_, ?_, ?_, ?_⟩
  · simp [delete_entry_button, h]
  · simp [delete_contribution_button, h]
  · simp [delete_income_button, h]
  · simp [delete_contribution_with_reason, engine_begin, execStmt]
  · simp [delete_special_contribution_with_reason, engine_begin, execStmt]
  · simp [delete_project_income_with_reason, engine_begin, execStmt]

/-- Witness for C7's amended theorem at the whitespace-only reason. -/
theorem empty_reason_amended_witness :
    pyStrip " " = ""
    ∧ delete_entry_button emptyState 1 "boss" " " = emptyState
    ∧ (delete_contribution_with_reason emptyState 1 "boss" " "
        none).deletion_logs
      = emptyState.deletion_logs ++ [⟨"contribution", 1, "boss", " "⟩] :=
  ⟨by decide,
   (empty_reason_amended emptyState 1 "boss" " " (by decide)).1,
   (empty_reason_amended emptyState 1 "boss" " " (by decide)).2.2.2.1⟩

end Newapp
